import Mathlib

/-!
Shallow embedding of the sei-sense blockchain-data gateway core:
network registry (`chains.ts`), address validation (`services/utils.ts`),
the derived-view reconstructor (`getTransactionHistory`, `getWalletActivity`)
and the `analyze_wallet` risk score (`tools.ts`), together with theorems
settling the specification's claims about them.
-/

deriving instance DecidableEq for Except

/-! ### JavaScript string and number primitives -/

/-- Whitespace characters skipped by JS `parseInt` (ASCII subset). -/
def jsWhitespace (c : Char) : Bool :=
  c == ' ' || c == '\t' || c == '\n' || c == '\r'

/-- `startsWithList p l` is true when `p` is an initial segment of `l`
(character-list version of JS `String.prototype.startsWith`). -/
def startsWithList : List Char → List Char → Bool
  | [], _ => true
  | _ :: _, [] => false
  | p :: ps, c :: cs => (p == c) && startsWithList ps cs

/-- `hasSubstr pat l` is true when `pat` occurs contiguously anywhere in `l`
(character-list version of JS `String.prototype.includes`). -/
def hasSubstr (pat : List Char) : List Char → Bool
  | [] => startsWithList pat []
  | c :: cs => startsWithList pat (c :: cs) || hasSubstr pat cs

/-- Numeric value of an alphanumeric digit character (0-9, a-z, A-Z). -/
def digitVal (c : Char) : ℕ :=
  if c.isDigit then c.toNat - 48
  else if 'a' ≤ c && c ≤ 'z' then c.toNat - 97 + 10
  else if 'A' ≤ c && c ≤ 'Z' then c.toNat - 65 + 10
  else 0

/-- Is `c` a digit in the given radix (as accepted by JS `parseInt`)? -/
def isRadixDigit (radix : ℕ) (c : Char) : Bool :=
  (c.isDigit || ('a' ≤ c && c ≤ 'z') || ('A' ≤ c && c ≤ 'Z')) && digitVal c < radix

/-- Interpret a digit list in the given radix, most significant first. -/
def digitsToNat (radix : ℕ) (ds : List Char) : ℕ :=
  ds.foldl (fun a c => a * radix + digitVal c) 0

/-- JS `parseInt` digit phase: longest valid-digit starting segment; `none` when that
segment is empty (the `NaN` outcome). -/
def parseDigits (radix : ℕ) (cs : List Char) : Option ℕ :=
  let ds := cs.takeWhile (isRadixDigit radix)
  if ds.isEmpty then none else some (digitsToNat radix ds)

/-- Split an optional leading sign, returning the sign and the rest. -/
def splitSign : List Char → ℤ × List Char
  | '-' :: rest => (-1, rest)
  | '+' :: rest => (1, rest)
  | cs => (1, cs)

/-- Strip a leading `0x` / `0X`, reporting whether one was removed. -/
def stripHexMark : List Char → Bool × List Char
  | '0' :: 'x' :: rest => (true, rest)
  | '0' :: 'X' :: rest => (true, rest)
  | cs => (false, cs)

/-- JS `parseInt(s, 16)`: whitespace, optional sign, optional `0x`, hex digits.
`none` models the `NaN` result. -/
def jsParseInt16 (s : String) : Option ℤ :=
  let cs := s.data.dropWhile jsWhitespace
  let sc := splitSign cs
  let hm := stripHexMark sc.2
  match parseDigits 16 hm.2 with
  | none => none
  | some n => some (sc.1 * (n : ℤ))

/-- JS `parseInt(s)` with no radix argument: whitespace, optional sign, then
radix 16 when a `0x` mark is present, radix 10 otherwise. `none` models `NaN`. -/
def jsParseIntAuto (s : String) : Option ℤ :=
  let cs := s.data.dropWhile jsWhitespace
  let sc := splitSign cs
  let hm := stripHexMark sc.2
  let radix := if hm.1 then 16 else 10
  match parseDigits radix hm.2 with
  | none => none
  | some n => some (sc.1 * (n : ℤ))

/-- JS `s.slice(-4)`: the last four characters (the whole string when shorter). -/
def sliceLast4 (s : String) : String :=
  ⟨s.data.drop (s.data.length - 4)⟩

/-- JS `toLowerCase()` (ASCII): lower-case every character. Stated over the
character list so that it evaluates by kernel reduction. -/
def jsToLower (s : String) : String :=
  ⟨s.data.map Char.toLower⟩

/-! ### Correctness of the string primitives -/

theorem startsWithList_iff (p l : List Char) :
    startsWithList p l = true ↔ ∃ t, l = p ++ t := by
  induction p generalizing l with
  | nil => simp [startsWithList]
  | cons x xs ih =>
    cases l with
    | nil =>
      simp only [startsWithList]
      constructor
      · intro h; cases h
      · rintro ⟨t, ht⟩; cases ht
    | cons c cs =>
      simp only [startsWithList, Bool.and_eq_true, beq_iff_eq, ih]
      constructor
      · rintro ⟨rfl, t, rfl⟩; exact ⟨t, rfl⟩
      · rintro ⟨t, ht⟩
        injection ht with h1 h2
        exact ⟨h1.symm, t, h2⟩

theorem hasSubstr_iff (pat l : List Char) :
    hasSubstr pat l = true ↔ ∃ pre post, l = pre ++ pat ++ post := by
  induction l with
  | nil =>
    simp only [hasSubstr, startsWithList_iff]
    constructor
    · rintro ⟨t, ht⟩
      exact ⟨[], t, ht⟩
    · rintro ⟨pre, post, h⟩
      rcases List.append_eq_nil.mp h.symm with ⟨h1, h2⟩
      rcases List.append_eq_nil.mp h1 with ⟨h3, h4⟩
      exact ⟨[], by simp [h3, h4]⟩
  | cons c cs ih =>
    simp only [hasSubstr, Bool.or_eq_true, startsWithList_iff, ih]
    constructor
    · rintro (⟨t, ht⟩ | ⟨pre, post, h⟩)
      · exact ⟨[], t, by simpa using ht⟩
      · exact ⟨c :: pre, post, by simp [h]⟩
    · rintro ⟨pre, post, h⟩
      cases pre with
      | nil => exact Or.inl ⟨post, by simpa using h⟩
      | cons p ps =>
        injection h with h1 h2
        exact Or.inr ⟨ps, post, h2⟩

/-! ### Network registry (`src/core/chains.ts`) -/

namespace Chains

/-- Minimal model of a viem `Chain` descriptor. -/
structure ViemChain where
  id : ℤ
  name : String
deriving DecidableEq

/-- The viem `sei` mainnet chain descriptor. -/
def sei : ViemChain := ⟨1329, "Sei"⟩

/-- The viem `seiTestnet` chain descriptor. -/
def seiTestnet : ViemChain := ⟨1328, "Sei Testnet"⟩

/-- The viem `seiDevnet` chain descriptor. -/
def seiDevnet : ViemChain := ⟨713715, "Sei Devnet"⟩

/-- `DEFAULT_CHAIN_ID = 1328` from `chains.ts`. -/
def DEFAULT_CHAIN_ID : ℤ := 1328

/-- `networkNameMap`: network-name aliases to chain ids. -/
def networkNameMap : List (String × ℤ) :=
  [("sei", 1329), ("sei-testnet", 1328), ("sei-devnet", 713715)]

/-- A runtime value read out of `networkNameMap[name]`: an own numeric entry,
one of the function-valued members inherited from `Object.prototype`, or the
`Object.prototype` object itself (the value of the inherited `__proto__`
accessor on an object literal). -/
inductive JsValue where
  | num (n : ℤ)
  | protoFn (name : String)
  | protoObj
deriving DecidableEq

/-- The data-property names of `Object.prototype` (all function-valued) that
an object literal inherits, in addition to the `__proto__` accessor. -/
def objectProtoProps : List String :=
  ["constructor", "hasOwnProperty", "isPrototypeOf", "propertyIsEnumerable",
   "toLocaleString", "toString", "valueOf",
   "__defineGetter__", "__defineSetter__", "__lookupGetter__", "__lookupSetter__"]

/-- JS property lookup `networkNameMap[name]` (also the `name in networkNameMap`
test via `isSome`): own entries first, then the prototype chain of the object
literal — `__proto__` and the `Object.prototype` members are present and
truthy, so e.g. `networkNameMap["constructor"]` is the inherited `Object`
constructor function, not `undefined`. -/
def lookupNetwork (name : String) : Option JsValue :=
  match networkNameMap.lookup name with
  | some id => some (.num id)
  | none =>
    if name = "__proto__" then some .protoObj
    else if objectProtoProps.contains name then some (.protoFn name)
    else none

/-- JS truthiness of a looked-up value: numbers are truthy unless zero;
functions and objects are always truthy. -/
def jsTruthy : JsValue → Bool
  | .num n => n != 0
  | .protoFn _ => true
  | .protoObj => true

/-- `chainMap`: chain ids to viem chain descriptors. -/
def chainMap (id : ℤ) : Option ViemChain :=
  if id = 1329 then some sei
  else if id = 1328 then some seiTestnet
  else if id = 713715 then some seiDevnet
  else none

/-- A chain identifier argument: `number | string` in the source. -/
inductive ChainIdentifier where
  | num (n : ℤ)
  | str (s : String)

/-- `resolveChainId`: numbers pass through; strings are lower-cased and tested
with `networkName in networkNameMap` — true also for inherited prototype
properties, whose value is then returned as-is; otherwise parsed with
`parseInt`; otherwise the default chain id. The result type is `JsValue`
because for `"constructor"` and `"__proto__"` the function returns the
inherited non-numeric value at runtime despite its declared `number` type. -/
def resolveChainId : ChainIdentifier → JsValue
  | .num n => .num n
  | .str s =>
    let networkName := jsToLower s
    match lookupNetwork networkName with
    | some v => v
    | none =>
      match jsParseIntAuto networkName with
      | some parsedId => .num parsedId
      | none => .num DEFAULT_CHAIN_ID

/-- `getChain`: strings are lower-cased and `networkNameMap[networkName]` is
tested for truthiness — true also for the inherited prototype properties, in
which case `chainMap[<non-number>]` is `undefined` and `|| sei` yields `sei`;
only a falsy lookup throws `Unsupported network`. Numbers index `chainMap`
with `sei` as fallback. -/
def getChain : ChainIdentifier → Except String ViemChain
  | .str s =>
    let networkName := jsToLower s
    match lookupNetwork networkName with
    | some v =>
      if jsTruthy v then
        .ok ((match v with
          | .num id => chainMap id
          | _ => none).getD sei)
      else .error ("Unsupported network: " ++ s)
    | none => .error ("Unsupported network: " ++ s)
  | .num n => .ok ((chainMap n).getD sei)

/-- `getSupportedNetworks` from `chains.ts`: the alias names filtered by
`!name.includes('-')`. -/
def getSupportedNetworks : List String :=
  (networkNameMap.map Prod.fst).filter (fun name => !(hasSubstr ['-'] name.data))

end Chains

/-! ### `getSupportedNetworks` from `src/core/services/network.ts` -/

namespace NetworkSvc

/-- One entry of the network-service listing. -/
structure NetworkInfo where
  name : String
  chainId : String
  type : String
  rpcUrl : String
  restUrl : String
deriving DecidableEq

/-- `getSupportedNetworks` from `services/network.ts`: a fixed two-entry
listing (this is a distinct function from `Chains.getSupportedNetworks`,
reached through the REST route `/getSupportedNetworks`). -/
def getSupportedNetworks : List NetworkInfo :=
  [ { name := "sei", chainId := "pacific-1", type := "cosmos",
      rpcUrl := "https://rpc.sei-apis.com", restUrl := "https://rest.sei-apis.com" },
    { name := "sei-testnet", chainId := "atlantic-2", type := "cosmos",
      rpcUrl := "https://rpc-testnet.sei-apis.com", restUrl := "https://rest-testnet.sei-apis.com" } ]

end NetworkSvc

/-! ### Address validation (`src/core/services/utils.ts`) -/

namespace Utils

/-- Character class `[a-fA-F0-9]` of the EVM-address regex. -/
def isHexDigitChar (c : Char) : Bool :=
  c.isDigit || ('a' ≤ c && c ≤ 'f') || ('A' ≤ c && c ≤ 'F')

/-- Character class `[0-9a-z]` of the Sei-address regex. -/
def isLowerAlnumChar (c : Char) : Bool :=
  c.isDigit || ('a' ≤ c && c ≤ 'z')

/-- The regex test `/^0x[a-fA-F0-9]{40}$/.test(address)`. -/
def isEvmAddress (s : String) : Bool :=
  s.data.length == 42 && startsWithList ['0', 'x'] s.data
    && (s.data.drop 2).all isHexDigitChar

/-- The regex test `/^sei1[0-9a-z]{38}$/.test(address)`. -/
def isSeiAddress (s : String) : Bool :=
  s.data.length == 42 && startsWithList ['s', 'e', 'i', '1'] s.data
    && (s.data.drop 4).all isLowerAlnumChar

/-- `utils.validateAddress`: returns the address unchanged when either regex
matches, otherwise throws `Invalid address`. -/
def validateAddress (address : String) : Except String String :=
  if isEvmAddress address then .ok address
  else if isSeiAddress address then .ok address
  else .error ("Invalid address: " ++ address)

end Utils

/-! ### Spec-side address shapes (for claim C4) -/

/-- The spec's valid 40-hex-character 0x-prefixed address shape, stated
structurally on the character list. -/
def EvmShape (s : String) : Prop :=
  ∃ rest : List Char, s.data = '0' :: 'x' :: rest ∧ rest.length = 40 ∧
    ∀ c ∈ rest, Utils.isHexDigitChar c = true

/-- The spec's 38-character bech32-like Sei address shape, stated structurally
on the character list. -/
def SeiShape (s : String) : Prop :=
  ∃ rest : List Char, s.data = 's' :: 'e' :: 'i' :: '1' :: rest ∧ rest.length = 38 ∧
    ∀ c ∈ rest, Utils.isLowerAlnumChar c = true

/-! ### Regex-test correctness and helper lemmas -/

theorem isEvmAddress_iff (s : String) : Utils.isEvmAddress s = true ↔ EvmShape s := by
  unfold Utils.isEvmAddress EvmShape
  simp only [Bool.and_eq_true, beq_iff_eq, startsWithList_iff, List.all_eq_true]
  constructor
  · rintro ⟨⟨hlen, t, ht⟩, hall⟩
    refine ⟨t, by simpa using ht, ?_, ?_⟩
    · rw [ht] at hlen; simpa using hlen
    · intro c hc
      exact hall c (by rw [ht]; simpa using hc)
  · rintro ⟨rest, hs, hlen, hall⟩
    refine ⟨⟨by rw [hs]; simp [hlen], rest, by simpa using hs⟩, ?_⟩
    intro c hc
    exact hall c (by rw [hs] at hc; simpa using hc)

theorem isSeiAddress_iff (s : String) : Utils.isSeiAddress s = true ↔ SeiShape s := by
  unfold Utils.isSeiAddress SeiShape
  simp only [Bool.and_eq_true, beq_iff_eq, startsWithList_iff, List.all_eq_true]
  constructor
  · rintro ⟨⟨hlen, t, ht⟩, hall⟩
    refine ⟨t, by simpa using ht, ?_, ?_⟩
    · rw [ht] at hlen; simpa using hlen
    · intro c hc
      exact hall c (by rw [ht]; simpa using hc)
  · rintro ⟨rest, hs, hlen, hall⟩
    refine ⟨⟨by rw [hs]; simp [hlen], rest, by simpa using hs⟩, ?_⟩
    intro c hc
    exact hall c (by rw [hs] at hc; simpa using hc)

theorem resolveChainId_of_alias (s : String) (id : ℤ)
    (h : Chains.networkNameMap.lookup (jsToLower s) = some id) :
    Chains.resolveChainId (.str s) = .num id := by
  simp [Chains.resolveChainId, Chains.lookupNetwork, h]

theorem resolveChainId_of_unknown (s : String)
    (h1 : Chains.lookupNetwork (jsToLower s) = none)
    (h2 : jsParseIntAuto (jsToLower s) = none) :
    Chains.resolveChainId (.str s) = .num Chains.DEFAULT_CHAIN_ID := by
  simp [Chains.resolveChainId, h1, h2]

theorem getChain_error_of_unknown (s : String)
    (h : Chains.lookupNetwork (jsToLower s) = none) :
    Chains.getChain (.str s) = .error ("Unsupported network: " ++ s) := by
  simp [Chains.getChain, h]

/-! ### Claim C4 -/

/-- C4: for every string matching the 40-hex-character 0x-prefixed shape or the
38-character bech32-like Sei shape, `validateAddress` returns the input
unchanged, and for every other string it fails with the `Invalid address`
error; the function is pure, so no network call is involved either way. -/
theorem claim_C4_validateAddress : ∀ s : String,
    (Utils.validateAddress s = .ok s ↔ (EvmShape s ∨ SeiShape s)) ∧
    (Utils.validateAddress s = .ok s ∨
      Utils.validateAddress s = .error ("Invalid address: " ++ s)) := by
  intro s
  constructor
  · rw [← isEvmAddress_iff, ← isSeiAddress_iff]
    unfold Utils.validateAddress
    by_cases h1 : Utils.isEvmAddress s = true <;>
      by_cases h2 : Utils.isSeiAddress s = true <;>
        simp [h1, h2]
  · unfold Utils.validateAddress
    split
    · exact Or.inl rfl
    · split
      · exact Or.inl rfl
      · exact Or.inr rfl

/-! ### Claim C5 -/

/-- C5 counterexample: `"constructor"` is neither a known alias nor parseable
as an integer, yet `resolveChainId` does not return the default chain id: the
`in` test finds the inherited `Object.prototype.constructor`, and its value —
the `Object` constructor function, not a number — is returned instead. -/
theorem claim_C5_counterexample :
    Chains.networkNameMap.lookup "constructor" = none ∧
    jsParseIntAuto "constructor" = none ∧
    Chains.resolveChainId (.str "constructor") = .protoFn "constructor" ∧
    Chains.resolveChainId (.str "constructor") ≠ .num Chains.DEFAULT_CHAIN_ID := by
  decide

/-- C5 amended: `resolveChainId` depends only on the lower-cased identifier,
so any two casings resolve alike, and any casing of a known alias resolves to
its mapped chain id; a string whose lower-casing is neither a known alias nor
an inherited `Object.prototype` property name (after lower-casing only
`constructor` and `__proto__` are reachable) nor parseable by `parseInt`
resolves to the default chain id rather than failing. -/
theorem claim_C5_amended :
    (∀ s₁ s₂ : String, jsToLower s₁ = jsToLower s₂ →
      Chains.resolveChainId (.str s₁) = Chains.resolveChainId (.str s₂)) ∧
    (∀ (s : String) (id : ℤ), Chains.networkNameMap.lookup (jsToLower s) = some id →
      Chains.resolveChainId (.str s) = .num id) ∧
    (∀ s : String, Chains.lookupNetwork (jsToLower s) = none →
      jsParseIntAuto (jsToLower s) = none →
      Chains.resolveChainId (.str s) = .num Chains.DEFAULT_CHAIN_ID) := by
  refine ⟨?_, resolveChainId_of_alias, resolveChainId_of_unknown⟩
  intro s₁ s₂ h
  simp only [Chains.resolveChainId, h]

/-- Witness for C5 (amended) at concrete inputs: two casings of `sei` resolve
alike, a cased known alias resolves to its chain id, and an unknown
unparseable non-inherited name falls back to the default chain id. -/
theorem claim_C5_witness :
    Chains.resolveChainId (.str "SEI") = Chains.resolveChainId (.str "sEi") ∧
    Chains.resolveChainId (.str "Sei-Testnet") = .num 1328 ∧
    Chains.resolveChainId (.str "no-such-network") = .num Chains.DEFAULT_CHAIN_ID :=
  ⟨claim_C5_amended.1 "SEI" "sEi" (by decide),
   claim_C5_amended.2.1 "Sei-Testnet" 1328 (by decide),
   claim_C5_amended.2.2 "no-such-network" (by decide) (by decide)⟩

/-! ### Claim C6 -/

/-- C6 counterexample: `"constructor"` is not a known alias, yet `getChain`
does not throw: `networkNameMap["constructor"]` is the inherited (truthy)
`Object.prototype.constructor`, the `chainMap` lookup with that non-numeric
key is `undefined`, and `|| sei` silently yields the `sei` descriptor. -/
theorem claim_C6_counterexample :
    Chains.networkNameMap.lookup "constructor" = none ∧
    Chains.getChain (.str "constructor") = .ok Chains.sei := by
  decide

/-- C6 amended: for every string whose lower-casing is neither a known alias
nor an inherited `Object.prototype` property name, the direct descriptor path
`getChain` throws `Unsupported network`, while `resolveChainId` on the same
inputs never fails: when the string is also not parseable as an integer it
falls back to the default chain id — the two network-resolution entry points
have inconsistent failure policies. (For the reachable inherited names
`constructor` and `__proto__`, `getChain` instead silently returns the `sei`
descriptor.) -/
theorem claim_C6_amended :
    (∀ s : String, Chains.lookupNetwork (jsToLower s) = none →
      Chains.getChain (.str s) = .error ("Unsupported network: " ++ s)) ∧
    (∀ s : String, Chains.lookupNetwork (jsToLower s) = none →
      jsParseIntAuto (jsToLower s) = none →
      Chains.resolveChainId (.str s) = .num Chains.DEFAULT_CHAIN_ID) :=
  ⟨getChain_error_of_unknown, resolveChainId_of_unknown⟩

/-- Witness for C6 (amended) at a concrete input: `foonet` is unknown and not
inherited, `getChain` throws on it, and `resolveChainId` returns the default
chain id for it. -/
theorem claim_C6_witness :
    Chains.getChain (.str "foonet") = .error ("Unsupported network: " ++ "foonet") ∧
    Chains.resolveChainId (.str "foonet") = .num Chains.DEFAULT_CHAIN_ID :=
  ⟨claim_C6_amended.1 "foonet" (by decide),
   claim_C6_amended.2 "foonet" (by decide) (by decide)⟩

/-! ### Claim C7 -/

/-- C7 counterexample: the claim is false for the `services/network.ts`
implementation of `getSupportedNetworks` (one of the two functions the claim
covers, reached through the REST route): its listing contains the alias
`sei-testnet`, which contains a hyphen. -/
theorem claim_C7_counterexample :
    (NetworkSvc.getSupportedNetworks.map NetworkSvc.NetworkInfo.name)
      = ["sei", "sei-testnet"] ∧
    hasSubstr ['-'] "sei-testnet".data = true := by
  decide

/-- C7 amended: the registry implementation `Chains.getSupportedNetworks`
(`chains.ts`, used by the tool surface) contains no alias with a hyphen — its
listing is exactly `["sei"]`; the claim fails only for the separate
`services/network.ts` listing. -/
theorem claim_C7_amended :
    Chains.getSupportedNetworks.all (fun name => !(hasSubstr ['-'] name.data)) = true ∧
    Chains.getSupportedNetworks = ["sei"] := by
  decide

/-! ### Derived-view reconstructor (`getTransactionHistory`, `getWalletActivity`) -/

namespace Txs

/-- Classified transaction type. -/
inductive TxType where
  | transfer
  | contract
  | swap
  | other
deriving DecidableEq

/-- Receipt status. -/
inductive TxStatus where
  | success
  | failed
deriving DecidableEq

/-- A transaction as it appears inside a fetched block (`viem` shape). -/
structure Tx where
  hash : String
  fromAddr : String
  toAddr : Option String
  value : ℕ
  input : String
  gasPrice : Option ℕ
deriving DecidableEq

/-- A fetched block with its included transactions. -/
structure Block where
  number : ℕ
  timestamp : ℕ
  transactions : List Tx
deriving DecidableEq

/-- A transaction receipt. `status` is true for `'success'`. -/
structure Receipt where
  gasUsed : ℕ
  status : Bool
deriving DecidableEq

/-- The chain read oracle: block height, per-block fetch (`none` models a
fetch failure, which the scanner catches and skips), per-hash receipt fetch
(`none` models a failure, defaulted to gas 0 / success), and the chain-level
transaction count (nonce). -/
structure ChainData where
  latestBlock : ℕ
  getBlock : ℕ → Option Block
  getReceipt : String → Option Receipt
  getTransactionCount : String → ℕ

/-- One reconstructed entry of the transaction history. -/
structure TxRecord where
  hash : String
  fromAddr : String
  toAddr : Option String
  value : ℕ
  gasUsed : ℕ
  gasPrice : ℕ
  blockNumber : ℕ
  timestamp : ℤ
  status : TxStatus
  type : TxType
  fee : ℕ
deriving DecidableEq

/-- ERC-20 `transfer` selector hex digits. -/
def selTransfer : List Char := "a9059cbb".data

/-- ERC-20 `transferFrom` selector hex digits. -/
def selTransferFrom : List Char := "23b872dd".data

/-- DEX `swapExactETHForTokens` selector hex digits. -/
def selSwapEth : List Char := "7ff36ab5".data

/-- DEX `swapExactTokensForTokens` selector hex digits. -/
def selSwapTokens : List Char := "38ed1739".data

/-- Transaction-type classification from `getTransactionHistory`: contract
creation (`to === null`) is `contract`; otherwise, when call data is present,
`input.toLowerCase().includes(...)` checks the transfer selectors, then the
swap selectors, defaulting to `contract`; with no call data the initial
`transfer` stands. -/
def classifyTx (tx : Tx) : TxType :=
  match tx.toAddr with
  | none => .contract
  | some _ =>
    if tx.input ≠ "" ∧ tx.input ≠ "0x" then
      let inp := (jsToLower tx.input).data
      if hasSubstr selTransfer inp || hasSubstr selTransferFrom inp then .transfer
      else if hasSubstr selSwapEth inp || hasSubstr selSwapTokens inp then .swap
      else .contract
    else .transfer

/-- Build one history record for an involving transaction: receipt lookup for
gas-used and status (defaults `'0'` / `'success'` when the receipt fetch
fails), type classification, and `fee = gasUsed * gasPrice` with
`gasPrice = tx.gasPrice || '0'`. -/
def mkTxRecord (chain : ChainData) (b : Block) (tx : Tx) : TxRecord :=
  let rcpt := chain.getReceipt tx.hash
  let gasUsed := match rcpt with
    | none => 0
    | some r => r.gasUsed
  let status := match rcpt with
    | none => TxStatus.success
    | some r => if r.status then TxStatus.success else TxStatus.failed
  let gasPrice := tx.gasPrice.getD 0
  { hash := tx.hash
    fromAddr := tx.fromAddr
    toAddr := tx.toAddr
    value := tx.value
    gasUsed := gasUsed
    gasPrice := gasPrice
    blockNumber := b.number
    timestamp := (b.timestamp : ℤ) * 1000
    status := status
    type := classifyTx tx
    fee := gasUsed * gasPrice }

/-- A transaction involves the address when its `from` or `to` equals the
address case-insensitively. -/
def involves (addr : String) (tx : Tx) : Bool :=
  (jsToLower tx.fromAddr == jsToLower addr) ||
    (match tx.toAddr with
     | some t => jsToLower t == jsToLower addr
     | none => false)

/-- Inner loop over one block's transactions: append a record for each
involving transaction while fewer than `limit` are collected. -/
def scanBlockTxs (chain : ChainData) (addr : String) (limit : ℕ) (b : Block) :
    List Tx → List TxRecord → List TxRecord
  | [], acc => acc
  | tx :: rest, acc =>
    if involves addr tx ∧ acc.length < limit then
      scanBlockTxs chain addr limit b rest (acc ++ [mkTxRecord chain b tx])
    else
      scanBlockTxs chain addr limit b rest acc

/-- Outer loop walking `steps` block numbers downward from `blockNum`, exiting
early once `limit` records are collected; a failed block fetch is skipped. -/
def scanBlocks (chain : ChainData) (addr : String) (limit : ℕ) :
    ℕ → ℕ → List TxRecord → List TxRecord
  | 0, _, acc => acc
  | steps + 1, blockNum, acc =>
    if acc.length < limit then
      match chain.getBlock blockNum with
      | none => scanBlocks chain addr limit steps (blockNum - 1) acc
      | some b =>
        scanBlocks chain addr limit steps (blockNum - 1)
          (scanBlockTxs chain addr limit b b.transactions acc)
    else acc

/-- The comparator `(a, b) => b.blockNumber - a.blockNumber`: `a` precedes `b`
when `a`'s block number is at least `b`'s. -/
def txDescBlock (a b : TxRecord) : Prop := b.blockNumber ≤ a.blockNumber

instance : DecidableRel txDescBlock :=
  fun a b => inferInstanceAs (Decidable (b.blockNumber ≤ a.blockNumber))

instance : IsTotal TxRecord txDescBlock :=
  ⟨fun a b => le_total b.blockNumber a.blockNumber⟩

instance : IsTrans TxRecord txDescBlock :=
  ⟨fun a _ c h1 h2 => show c.blockNumber ≤ a.blockNumber from le_trans h2 h1⟩

/-- Result shape of `getTransactionHistory`. -/
structure TxHistory where
  transactions : List TxRecord
  totalCount : ℕ
deriving DecidableEq

/-- `getTransactionHistory`: scan at most `min 100 latestBlock` recent blocks
newest-to-oldest collecting involving transactions up to `limit`, then sort by
block number descending (JS `Array.prototype.sort` is stable, modelled by
stable insertion sort) and report the collected count. -/
def getTransactionHistory (chain : ChainData) (addr : String) (limit : ℕ) :
    TxHistory :=
  let latestBlock := chain.latestBlock
  let blocksToSearch := min 100 latestBlock
  let collected := scanBlocks chain addr limit blocksToSearch latestBlock []
  let transactions := collected.insertionSort txDescBlock
  { transactions := transactions, totalCount := transactions.length }

/-- One entry of the wallet-activity recent-transaction list. -/
structure RecentTx where
  hash : String
  type : TxType
  amount : ℕ
  timestamp : ℤ
deriving DecidableEq

/-- Result shape of `getWalletActivity`. -/
structure WalletActivity where
  transactionCount : ℕ
  lastActivity : Option ℤ
  recentTransactions : List RecentTx
deriving DecidableEq

/-- `getWalletActivity`: authoritative transaction count from the chain, up to
5 recent transactions via the history scan; `lastActivity` is the newest found
timestamp, or an estimate (pseudo-random `daysAgo` clamped to [1, 365], range
narrowing with the count, with `rand` modelling `Math.random()` and `nowMs`
modelling `Date.now()`) when the count is nonzero, or `null`. Timestamps are in
epoch milliseconds. -/
def getWalletActivity (chain : ChainData) (addr : String) (nowMs : ℤ) (rand : ℚ) :
    WalletActivity :=
  let transactionCount := chain.getTransactionCount addr
  let history := getTransactionHistory chain addr 5
  let lastActivity : Option ℤ :=
    match history.transactions with
    | t :: _ => some t.timestamp
    | [] =>
      if 0 < transactionCount then
        let range : ℚ := if 100 < transactionCount then 30
          else if 10 < transactionCount then 90 else 180
        let daysAgo : ℤ := max 1 (min 365 ⌊rand * range⌋)
        some (nowMs - daysAgo * 86400000)
      else none
  { transactionCount := transactionCount
    lastActivity := lastActivity
    recentTransactions := history.transactions.map (fun t =>
      { hash := t.hash, type := t.type, amount := t.value, timestamp := t.timestamp }) }

end Txs

/-! ### Scan invariants -/

theorem scanBlockTxs_length_le (chain : Txs.ChainData) (addr : String) (limit : ℕ)
    (b : Txs.Block) :
    ∀ (txs : List Txs.Tx) (acc : List Txs.TxRecord), acc.length ≤ limit →
      (Txs.scanBlockTxs chain addr limit b txs acc).length ≤ limit := by
  intro txs
  induction txs with
  | nil => intro acc h; simpa [Txs.scanBlockTxs] using h
  | cons tx rest ih =>
    intro acc h
    simp only [Txs.scanBlockTxs]
    split
    · next hc =>
      refine ih _ ?_
      have := hc.2
      simp only [List.length_append, List.length_singleton]
      omega
    · exact ih _ h

theorem scanBlocks_length_le (chain : Txs.ChainData) (addr : String) (limit : ℕ) :
    ∀ (steps blockNum : ℕ) (acc : List Txs.TxRecord), acc.length ≤ limit →
      (Txs.scanBlocks chain addr limit steps blockNum acc).length ≤ limit := by
  intro steps
  induction steps with
  | zero => intro bn acc h; simpa [Txs.scanBlocks] using h
  | succ k ih =>
    intro bn acc h
    simp only [Txs.scanBlocks]
    split
    · cases hb : chain.getBlock bn with
      | none => exact ih _ _ h
      | some b => exact ih _ _ (scanBlockTxs_length_le chain addr limit b _ _ h)
    · exact h

/-- The transaction list of a history result never exceeds `limit`. -/
theorem history_length_le (chain : Txs.ChainData) (addr : String) (limit : ℕ) :
    (Txs.getTransactionHistory chain addr limit).transactions.length ≤ limit := by
  unfold Txs.getTransactionHistory
  simp only [List.length_insertionSort]
  exact scanBlocks_length_le chain addr limit _ _ [] (Nat.zero_le _)

theorem scanBlockTxs_fee_inv (chain : Txs.ChainData) (addr : String) (limit : ℕ)
    (b : Txs.Block) :
    ∀ (txs : List Txs.Tx) (acc : List Txs.TxRecord),
      (∀ r ∈ acc, r.fee = r.gasUsed * r.gasPrice) →
      ∀ r ∈ Txs.scanBlockTxs chain addr limit b txs acc,
        r.fee = r.gasUsed * r.gasPrice := by
  intro txs
  induction txs with
  | nil => intro acc h; simpa [Txs.scanBlockTxs] using h
  | cons tx rest ih =>
    intro acc h
    simp only [Txs.scanBlockTxs]
    split
    · refine ih _ ?_
      intro r hr
      rcases List.mem_append.mp hr with hr | hr
      · exact h r hr
      · rw [List.mem_singleton.mp hr]
        rfl
    · exact ih _ h

theorem scanBlocks_fee_inv (chain : Txs.ChainData) (addr : String) (limit : ℕ) :
    ∀ (steps blockNum : ℕ) (acc : List Txs.TxRecord),
      (∀ r ∈ acc, r.fee = r.gasUsed * r.gasPrice) →
      ∀ r ∈ Txs.scanBlocks chain addr limit steps blockNum acc,
        r.fee = r.gasUsed * r.gasPrice := by
  intro steps
  induction steps with
  | zero => intro bn acc h; simpa [Txs.scanBlocks] using h
  | succ k ih =>
    intro bn acc h
    simp only [Txs.scanBlocks]
    split
    · cases hb : chain.getBlock bn with
      | none => exact ih _ _ h
      | some b => exact ih _ _ (scanBlockTxs_fee_inv chain addr limit b _ _ h)
    · exact h

/-! ### Claim C2 -/

/-- C2: for every chain state, address, and limit, `getTransactionHistory`
returns at most `limit` entries, and the entries are pairwise ordered by block
number descending (newest first). -/
theorem claim_C2_history_bounded_sorted :
    ∀ (chain : Txs.ChainData) (addr : String) (limit : ℕ),
      (Txs.getTransactionHistory chain addr limit).transactions.length ≤ limit ∧
      (Txs.getTransactionHistory chain addr limit).transactions.Pairwise
        (fun a b => b.blockNumber ≤ a.blockNumber) := by
  intro chain addr limit
  refine ⟨history_length_le chain addr limit, ?_⟩
  exact List.sorted_insertionSort Txs.txDescBlock _

/-! ### Claim C3 -/

/-- C3: every record produced by `getTransactionHistory` satisfies
`fee = gasUsed * gasPrice` exactly, over unbounded integers. -/
theorem claim_C3_fee (chain : Txs.ChainData) (addr : String) (limit : ℕ)
    (rec : Txs.TxRecord)
    (h : rec ∈ (Txs.getTransactionHistory chain addr limit).transactions) :
    rec.fee = rec.gasUsed * rec.gasPrice := by
  unfold Txs.getTransactionHistory at h
  simp only at h
  exact scanBlocks_fee_inv chain addr limit _ _ []
    (by intro r hr; cases hr) rec ((List.mem_insertionSort Txs.txDescBlock).mp h)

/-- Concrete transaction for the C3 witness: gasPrice 1 gwei. -/
def txC3 : Txs.Tx :=
  { hash := "0xt1", fromAddr := "0xa", toAddr := some "0xb", value := 7,
    input := "0x", gasPrice := some 1000000000 }

/-- Concrete block for the C3 witness. -/
def blockC3 : Txs.Block :=
  { number := 1, timestamp := 1700000000, transactions := [txC3] }

/-- Concrete chain state for the C3 witness: one block, one transaction whose
receipt reports gasUsed 21000. -/
def chainC3 : Txs.ChainData :=
  { latestBlock := 1,
    getBlock := fun n => if n = 1 then some blockC3 else none,
    getReceipt := fun h => if h = "0xt1" then some { gasUsed := 21000, status := true } else none,
    getTransactionCount := fun _ => 1 }

/-- The record reconstructed for the C3 witness transaction. -/
def recC3 : Txs.TxRecord := Txs.mkTxRecord chainC3 blockC3 txC3

/-- Witness for C3: on a concrete chain the collected record with
gasUsed = 21000 and gasPrice = 1000000000 has fee exactly 21000000000000. -/
theorem claim_C3_witness :
    recC3 ∈ (Txs.getTransactionHistory chainC3 "0xb" 10).transactions ∧
    recC3.fee = recC3.gasUsed * recC3.gasPrice ∧
    recC3.gasUsed = 21000 ∧ recC3.gasPrice = 1000000000 ∧
    recC3.fee = 21000000000000 :=
  ⟨by decide, claim_C3_fee chainC3 "0xb" 10 recC3 (by decide),
   by decide, by decide, by decide⟩

/-! ### Claim C10 -/

/-- C10: `totalCount` equals the length of the returned transaction list, and
is therefore bounded by `limit` (it is not a count of all on-chain
transactions for the address). -/
theorem claim_C10_totalCount :
    ∀ (chain : Txs.ChainData) (addr : String) (limit : ℕ),
      (Txs.getTransactionHistory chain addr limit).totalCount
        = (Txs.getTransactionHistory chain addr limit).transactions.length ∧
      (Txs.getTransactionHistory chain addr limit).totalCount ≤ limit := by
  intro chain addr limit
  exact ⟨rfl, history_length_le chain addr limit⟩

/-! ### Claim C8 -/

/-- The classification rule as claim C8 states it (stated from the claim's
words, for comparison with the source's `classifyTx`): the type is determined
by the call data's leading 4-byte selector — known transfer selectors give
`transfer`, known swap selectors give `swap`, other non-empty call data gives
`contract`, and no call data gives `transfer`. -/
def claimedClassifyType (tx : Txs.Tx) : Txs.TxType :=
  if tx.input = "" ∨ tx.input = "0x" then .transfer
  else
    let sel := ((jsToLower tx.input).data.drop 2).take 8
    if sel = Txs.selTransfer ∨ sel = Txs.selTransferFrom then .transfer
    else if sel = Txs.selSwapEth ∨ sel = Txs.selSwapTokens then .swap
    else .contract

/-- Concrete transaction for the C8 counterexample: its leading selector is
the unknown `12345678`, but the ERC-20 transfer selector occurs later inside
the argument bytes. -/
def txC8 : Txs.Tx :=
  { hash := "0xt8", fromAddr := "0xb", toAddr := some "0xc", value := 0,
    input := "0x1234567800000000a9059cbb", gasPrice := some 1 }

/-- Concrete block for the C8 counterexample. -/
def blockC8 : Txs.Block :=
  { number := 3, timestamp := 1700000100, transactions := [txC8] }

/-- Concrete chain state for the C8 counterexample. -/
def chainC8 : Txs.ChainData :=
  { latestBlock := 3,
    getBlock := fun n => if n = 3 then some blockC8 else none,
    getReceipt := fun _ => none,
    getTransactionCount := fun _ => 1 }

/-- C8 counterexample: the collected transaction's leading selector is the
unrecognized `12345678`, so the claimed rule yields `contract`, yet the code
classifies it `transfer` because it matches selectors by substring search
(`input.includes(...)`) anywhere in the call data, not by the leading
selector. -/
theorem claim_C8_counterexample :
    ((Txs.getTransactionHistory chainC8 "0xb" 10).transactions.map Txs.TxRecord.type)
      = [Txs.TxType.transfer] ∧
    claimedClassifyType txC8 = Txs.TxType.contract := by
  decide

/-- The transaction carries call data (`input` nonempty and not bare `0x`). -/
def HasCallData (tx : Txs.Tx) : Prop := tx.input ≠ "" ∧ tx.input ≠ "0x"

instance (tx : Txs.Tx) : Decidable (HasCallData tx) :=
  inferInstanceAs (Decidable (_ ∧ _))

/-- The selector's hex digits occur contiguously somewhere in the lower-cased
call data. -/
def MentionsSelector (tx : Txs.Tx) (sel : List Char) : Prop :=
  ∃ pre post, (jsToLower tx.input).data = pre ++ sel ++ post

theorem mentionsSelector_iff (tx : Txs.Tx) (sel : List Char) :
    MentionsSelector tx sel ↔ hasSubstr sel (jsToLower tx.input).data = true :=
  (hasSubstr_iff sel (jsToLower tx.input).data).symm

/-- C8 amended: the recorded type is `classifyTx`, which classifies contract
creations (`to = null`) as `contract` first, and otherwise matches the known
selectors by substring occurrence anywhere in the lower-cased call data
(transfer selectors taking precedence over swap selectors), with `contract`
for unrecognized non-empty call data and `transfer` when there is no call
data; `other` is never produced. -/
theorem claim_C8_amended : ∀ tx : Txs.Tx,
    (Txs.classifyTx tx = Txs.TxType.contract ↔
      (tx.toAddr = none ∨ (HasCallData tx ∧
        ¬MentionsSelector tx Txs.selTransfer ∧ ¬MentionsSelector tx Txs.selTransferFrom ∧
        ¬MentionsSelector tx Txs.selSwapEth ∧ ¬MentionsSelector tx Txs.selSwapTokens))) ∧
    (Txs.classifyTx tx = Txs.TxType.transfer ↔
      (tx.toAddr ≠ none ∧ (¬HasCallData tx ∨
        MentionsSelector tx Txs.selTransfer ∨ MentionsSelector tx Txs.selTransferFrom))) ∧
    (Txs.classifyTx tx = Txs.TxType.swap ↔
      (tx.toAddr ≠ none ∧ HasCallData tx ∧
        ¬MentionsSelector tx Txs.selTransfer ∧ ¬MentionsSelector tx Txs.selTransferFrom ∧
        (MentionsSelector tx Txs.selSwapEth ∨ MentionsSelector tx Txs.selSwapTokens))) ∧
    Txs.classifyTx tx ≠ Txs.TxType.other := by
  intro tx
  rcases hto : tx.toAddr with _ | t
  · simp [Txs.classifyTx, hto]
  · by_cases hd : HasCallData tx
    · rcases hd' : hd with ⟨hd1, hd2⟩
      cases h1 : hasSubstr Txs.selTransfer (jsToLower tx.input).data
        <;> cases h2 : hasSubstr Txs.selTransferFrom (jsToLower tx.input).data
        <;> cases h3 : hasSubstr Txs.selSwapEth (jsToLower tx.input).data
        <;> cases h4 : hasSubstr Txs.selSwapTokens (jsToLower tx.input).data
        <;> simp [Txs.classifyTx, hto, hd1, hd2, HasCallData,
              mentionsSelector_iff, h1, h2, h3, h4]
    · have hd1 : ¬(tx.input ≠ "" ∧ tx.input ≠ "0x") := hd
      simp only [not_and_or, not_not] at hd1
      rcases hd1 with hd1 | hd1 <;>
        simp [Txs.classifyTx, hto, hd1, HasCallData, mentionsSelector_iff]

/-! ### Claim C9 -/

/-- Concrete incoming transaction for the C9 counterexample: the observed
address is the recipient, so the sender's nonce — not the recipient's — was
incremented by it. -/
def txC9 : Txs.Tx :=
  { hash := "0xt9", fromAddr := "0xa", toAddr := some "0xb", value := 5,
    input := "0x", gasPrice := some 1 }

/-- Concrete block for the C9 counterexample. -/
def blockC9 : Txs.Block :=
  { number := 1, timestamp := 500, transactions := [txC9] }

/-- Concrete chain state for the C9 counterexample: the chain reports
transaction count 0 for every address, yet the scan window contains an
incoming transaction to `0xb`. -/
def chainC9 : Txs.ChainData :=
  { latestBlock := 1,
    getBlock := fun n => if n = 1 then some blockC9 else none,
    getReceipt := fun _ => none,
    getTransactionCount := fun _ => 0 }

/-- C9 counterexample: the chain-level transaction count (nonce) counts only
outgoing transactions, so an address with count 0 can still have an incoming
transaction inside the scanned window; `getWalletActivity` then returns a
non-null `lastActivity` and a nonempty recent list, contrary to the claim. -/
theorem claim_C9_counterexample :
    chainC9.getTransactionCount "0xb" = 0 ∧
    (Txs.getWalletActivity chainC9 "0xb" 0 0).lastActivity ≠ none ∧
    (Txs.getWalletActivity chainC9 "0xb" 0 0).recentTransactions ≠ [] := by
  decide

/-- C9 amended: for every address for which the chain reports transaction
count 0 and for which the windowed scan finds no involving transaction,
`getWalletActivity` returns `lastActivity = null` and an empty
recent-transaction list. -/
theorem claim_C9_amended (chain : Txs.ChainData) (addr : String) (nowMs : ℤ) (rand : ℚ)
    (h0 : chain.getTransactionCount addr = 0)
    (hscan : (Txs.getTransactionHistory chain addr 5).transactions = []) :
    (Txs.getWalletActivity chain addr nowMs rand).lastActivity = none ∧
    (Txs.getWalletActivity chain addr nowMs rand).recentTransactions = [] := by
  unfold Txs.getWalletActivity
  simp [hscan, h0]

/-- Concrete chain state for the C9 witness: empty chain, zero counts. -/
def chainC9w : Txs.ChainData :=
  { latestBlock := 0,
    getBlock := fun _ => none,
    getReceipt := fun _ => none,
    getTransactionCount := fun _ => 0 }

/-- Witness for C9 (amended) at a concrete input: on an empty chain the
activity summary has null `lastActivity` and no recent transactions. -/
theorem claim_C9_witness :
    chainC9w.getTransactionCount "0xb" = 0 ∧
    (Txs.getTransactionHistory chainC9w "0xb" 5).transactions = [] ∧
    (Txs.getWalletActivity chainC9w "0xb" 1700000000000 (1/2)).lastActivity = none ∧
    (Txs.getWalletActivity chainC9w "0xb" 1700000000000 (1/2)).recentTransactions = [] :=
  ⟨rfl, by decide,
   (claim_C9_amended chainC9w "0xb" 1700000000000 (1/2) rfl (by decide)).1,
   (claim_C9_amended chainC9w "0xb" 1700000000000 (1/2) rfl (by decide)).2⟩

/-! ### The `analyze_wallet` risk score (`tools.ts`) -/

/-- Transaction-count additive adjustments of the risk score. -/
def txCountAdj (txCount : ℕ) : ℚ :=
  (if 10 < txCount then (5:ℚ)/100 else 0) + (if 50 < txCount then 10/100 else 0) +
    (if 100 < txCount then 15/100 else 0) + (if 500 < txCount then 20/100 else 0) +
    (if 1000 < txCount then 25/100 else 0)

/-- Recency additive adjustment keyed on days since last activity (`none`
models a null `lastActivity`, which adds nothing). -/
def recencyAdj : Option ℚ → ℚ
  | none => 0
  | some d => if d < 1 then (10:ℚ)/100 else if d < 7 then 5/100 else 0

/-- Balance-magnitude additive adjustments of the risk score. -/
def balanceAdj (balanceValue : ℚ) : ℚ :=
  (if 1000 < balanceValue then (10:ℚ)/100 else 0) +
    (if 10000 < balanceValue then 15/100 else 0)

/-- The `analyze_wallet` risk score: base 0.05, additive adjustments for
transaction count, recency, and balance, plus a per-address jitter
`parseInt(address.slice(-4), 16) / 65535 * 0.1`, capped at 0.85. The result is
`none` when the jitter parse yields `NaN` (which propagates through the sum
and the cap). -/
def riskScore (txCount : ℕ) (daysSinceLastActivity : Option ℚ) (balanceValue : ℚ)
    (address : String) : Option ℚ :=
  let base : ℚ := 5/100
  let r1 := base + txCountAdj txCount
  let r2 := r1 + recencyAdj daysSinceLastActivity
  let r3 := r2 + balanceAdj balanceValue
  match jsParseInt16 (sliceLast4 address) with
  | none => none
  | some n => some (min (r3 + (n : ℚ) / 65535 * (10/100)) (85/100))

theorem txCountAdj_nonneg (txCount : ℕ) : 0 ≤ txCountAdj txCount := by
  unfold txCountAdj
  split_ifs <;> norm_num

theorem recencyAdj_nonneg (d : Option ℚ) : 0 ≤ recencyAdj d := by
  cases d with
  | none => simp [recencyAdj]
  | some x =>
    simp only [recencyAdj]
    split_ifs <;> norm_num

theorem balanceAdj_nonneg (balanceValue : ℚ) : 0 ≤ balanceAdj balanceValue := by
  unfold balanceAdj
  split_ifs <;> norm_num

/-! ### Claim C1 -/

/-- Concrete address for the C1 counterexample: a well-formed bech32-like Sei
address whose last four characters are not hex digits. -/
def addrC1 : String := "sei1qqqqqqqqqqqqqqqqqqqqqqqqqqqqqqqqqqzzzz"

/-- C1 counterexample: for this well-formed Sei address the per-address jitter
`parseInt(address.slice(-4), 16)` is `NaN` (modelled `none`), so the computed
risk score is `NaN` rather than a number in [0.05, 0.85] — the claim fails for
this input combination. -/
theorem claim_C1_counterexample :
    Utils.isSeiAddress addrC1 = true ∧
    ¬ ∃ r : ℚ, riskScore 5 none 0 addrC1 = some r ∧ 1/20 ≤ r ∧ r ≤ 17/20 := by
  constructor
  · decide
  · have h : riskScore 5 none 0 addrC1 = none := by decide
    rintro ⟨r, hr, -, -⟩
    rw [h] at hr
    exact Option.noConfusion hr

/-- C1 amended: whenever the trailing-four-character hex parse of the address
succeeds with a non-negative value — as it does for every 0x-prefixed
40-hex-digit address — the risk score is a number within [0.05, 0.85]. (When
the parse fails the score is `NaN`; a negative parse, possible only for
address strings with a sign character among the trailing characters, can push
the score below 0.05.) -/
theorem claim_C1_amended (txCount : ℕ) (daysSinceLastActivity : Option ℚ)
    (balanceValue : ℚ) (address : String) (n : ℤ)
    (hparse : jsParseInt16 (sliceLast4 address) = some n) (hn : 0 ≤ n) :
    ∃ r : ℚ, riskScore txCount daysSinceLastActivity balanceValue address = some r ∧
      1/20 ≤ r ∧ r ≤ 17/20 := by
  have hA : 0 ≤ txCountAdj txCount := txCountAdj_nonneg txCount
  have hB : 0 ≤ recencyAdj daysSinceLastActivity := recencyAdj_nonneg _
  have hC : 0 ≤ balanceAdj balanceValue := balanceAdj_nonneg _
  have hn' : (0:ℚ) ≤ (n : ℚ) := by exact_mod_cast hn
  have hJ : 0 ≤ (n : ℚ) / 65535 * (10/100) :=
    mul_nonneg (div_nonneg hn' (by norm_num)) (by norm_num)
  refine ⟨min ((5:ℚ)/100 + txCountAdj txCount + recencyAdj daysSinceLastActivity
      + balanceAdj balanceValue + (n : ℚ) / 65535 * (10/100)) ((85:ℚ)/100), ?_, ?_, ?_⟩
  · unfold riskScore
    rw [hparse]
  · exact le_min (by linarith) (by norm_num)
  · exact le_trans (min_le_right _ _) (by norm_num)

/-- Concrete address for the C1 witness: a 0x-prefixed 40-hex-digit address
whose trailing characters parse as hex 0x00cd = 205. -/
def addrC1w : String := "0x00000000000000000000000000000000000000cd"

/-- Witness for C1 (amended) at a concrete input: the jitter parse of the
concrete EVM address succeeds non-negatively, so the risk score lies within
[0.05, 0.85]. -/
theorem claim_C1_witness :
    jsParseInt16 (sliceLast4 addrC1w) = some 205 ∧ (0:ℤ) ≤ 205 ∧
    ∃ r : ℚ, riskScore 0 none 0 addrC1w = some r ∧ 1/20 ≤ r ∧ r ≤ 17/20 :=
  ⟨by decide, by decide, claim_C1_amended 0 none 0 addrC1w 205 (by decide) (by decide)⟩
